import Mathlib

/-!
Shallow embedding of `src/core/OpenRouterClient.ts` from the
`bramato/openrouter-agents` repository, together with theorems about the
service-profile resolver and the generation client.

JavaScript strings are modelled by `String`, JS numbers used as token
counts by `Nat`, JS temperature floats by `Rat` (every literal involved,
0.7 / 0.3 / 0.1 / 0.4 / 0.5 / 0.75, is an exact decimal, and
0.75 = 3/4 is exact in binary floating point, so `Math.floor(h * 0.75)`
on the table integers equals `h * 3 / 4`), and `process.env` by a
function `String → Option String` (`none` = unset variable).
-/

namespace OpenRouterAgents

/-- The `ServiceType` union from `src/types/index.ts`:
`'mockGenerator' | 'codeGenerator' | 'translation' | 'documentation' | 'custom'`. -/
inductive ServiceType where
  | mockGenerator
  | codeGenerator
  | translation
  | documentation
  | custom
deriving DecidableEq, Repr

/-- The string a `ServiceType` value interpolates to in a JS template
literal (used in `X-Title` and in the `Failed to generate with ...` message). -/
def serviceTypeName : ServiceType → String
  | .mockGenerator => "mockGenerator"
  | .codeGenerator => "codeGenerator"
  | .translation => "translation"
  | .documentation => "documentation"
  | .custom => "custom"

/-- `OpenRouterConfig` from `src/types/config.ts`. -/
structure OpenRouterConfig where
  apiKey : String
  baseURL : String
  model : String
deriving DecidableEq, Repr

/-- `process.env`: a partial map from variable names to string values. -/
def Env : Type := String → Option String

/-- JS truthiness of an `string | undefined` environment value:
`undefined` and the empty string are falsy. -/
def envTruthy : Option String → Option String
  | none => none
  | some s => if s = "" then none else some s

/-- `a || b` on JS strings: `a` unless it is falsy (empty), else `b`. -/
def jsOrString (a : Option String) (b : String) : String :=
  match a with
  | none => b
  | some s => if s = "" then b else s

/-- `OpenRouterClient.getServiceKey` (`src/core/OpenRouterClient.ts:32-45`). -/
def getServiceKey : ServiceType → String
  | .mockGenerator => "MOCK_GENERATOR"
  | .codeGenerator => "CODE_GENERATOR"
  | .translation => "TRANSLATION"
  | .documentation => "DOCUMENTATION"
  | .custom => "DEFAULT"

/-- `OpenRouterClient.getModelForService` (`src/core/OpenRouterClient.ts:13-30`):
the category-specific `OPENROUTER_<KEY>_MODEL` variable if truthy, then
`OPENROUTER_DEFAULT_MODEL` if truthy, then the configured model. -/
def getModelForService (env : Env) (config : OpenRouterConfig)
    (serviceType : ServiceType) : String :=
  match envTruthy (env ("OPENROUTER_" ++ getServiceKey serviceType ++ "_MODEL")) with
  | some serviceModel => serviceModel
  | none =>
    match envTruthy (env "OPENROUTER_DEFAULT_MODEL") with
    | some defaultModel => defaultModel
    | none => config.model

/-- `OpenRouterClient.supportsJsonMode` (`src/core/OpenRouterClient.ts:47-58`).
All five regexes are anchored at the start and contain only literal
characters, so each is a prefix test. -/
def supportsJsonMode (modelId : String) : Bool :=
  modelId.startsWith "openai/" ||
  modelId.startsWith "gpt-" ||
  modelId.startsWith "nitro" ||
  modelId.startsWith "anthropic/claude-3" ||
  modelId.startsWith "google/gemini"

/-- `String.prototype.includes`: substring containment. -/
def strIncludes (s pattern : String) : Bool :=
  decide (pattern.data <:+: s.data)

/-- `OpenRouterClient.getSystemPromptForService` (`src/core/OpenRouterClient.ts:124-140`). -/
def getSystemPromptForService (serviceType : ServiceType) (forceJson : Bool) : String :=
  match serviceType with
  | .mockGenerator =>
    if forceJson then
      "You are a mock data generator. Generate realistic mock data based on the provided schema and examples. You MUST return only valid JSON. Do not include any markdown formatting, code blocks, or explanations. The response must be parseable JSON."
    else
      "You are a mock data generator. Generate realistic mock data based on the provided schema and examples. Return only valid JSON without markdown formatting or explanations."
  | .codeGenerator =>
    "You are a code generator assistant. Generate clean, well-structured code following best practices. Include appropriate comments and follow the existing code style."
  | .translation =>
    "You are a translation assistant. Translate text accurately while preserving technical terms and context. Return only the translated text without explanations."
  | .documentation =>
    "You are a documentation assistant. Create clear, comprehensive documentation that is well-structured and easy to understand. Include examples where appropriate."
  | .custom =>
    "You are an AI assistant. Provide helpful and accurate responses."

/-- `OpenRouterClient.getTemperatureForService` (`src/core/OpenRouterClient.ts:142-155`). -/
def getTemperatureForService : ServiceType → Rat
  | .mockGenerator => 0.7
  | .codeGenerator => 0.3
  | .translation => 0.1
  | .documentation => 0.4
  | .custom => 0.5

/-- `OpenRouterClient.getTokenLimitByService` (`src/core/OpenRouterClient.ts:179-192`).
`Math.floor(x * 0.75)` on the table integers is exactly `x * 3 / 4`
(0.75 is exactly representable and the products are exact doubles). -/
def getTokenLimitByService (serviceType : ServiceType)
    (highLimit defaultLimit : Nat) : Nat :=
  match serviceType with
  | .mockGenerator => highLimit
  | .codeGenerator => highLimit * 3 / 4
  | .translation => defaultLimit * 3 / 4
  | .documentation => highLimit
  | .custom => defaultLimit

/-- The model-family branch chain of `OpenRouterClient.getMaxTokensForService`
(`src/core/OpenRouterClient.ts:157-177`), as a function of the already
resolved model string. -/
def maxTokensForModel (serviceType : ServiceType) (model : String) : Nat :=
  if strIncludes model "claude-3" then
    getTokenLimitByService serviceType 8000 4000
  else if strIncludes model "gpt-4" then
    getTokenLimitByService serviceType 6000 3000
  else if strIncludes model "gpt-3.5" then
    getTokenLimitByService serviceType 3000 2000
  else if strIncludes model "gemini" then
    getTokenLimitByService serviceType 7000 3500
  else
    getTokenLimitByService serviceType 4000 2000

/-- `OpenRouterClient.getMaxTokensForService`: resolves the model through
the environment chain (NOT through any per-call explicit model), then
applies the family table. -/
def getMaxTokensForService (env : Env) (config : OpenRouterConfig)
    (serviceType : ServiceType) : Nat :=
  maxTokensForModel serviceType (getModelForService env config serviceType)

/-- The optional `options` argument of `OpenRouterClient.generate`
(`src/core/OpenRouterClient.ts:62-68`); `none` is an absent field. -/
structure GenerateOptions where
  systemPrompt : Option String := none
  temperature : Option Rat := none
  maxTokens : Option Nat := none
  forceJson : Option Bool := none
  model : Option String := none
deriving DecidableEq, Repr

/-- One element of the `messages` array of the wire request. -/
structure Message where
  role : String
  content : String
deriving DecidableEq, Repr

/-- The `APIRequest` body built by `generate`
(`src/core/OpenRouterClient.ts:76-95`). `response_format` holds the
`type` tag of the `response_format` object when the field is present. -/
structure APIRequest where
  model : String
  messages : List Message
  temperature : Rat
  max_tokens : Nat
  response_format : Option String
deriving DecidableEq, Repr

/-- The request-assembly part of `OpenRouterClient.generate`
(`src/core/OpenRouterClient.ts:71-95`):
`options?.model || ...` and `options?.systemPrompt || ...` are JS `||`
(empty string falls through); `options?.temperature ?? ...` and
`options?.maxTokens ?? ...` are `??` (only absence falls through);
`getSystemPromptForService(options?.forceJson)` receives `false` via the
parameter default when `forceJson` is absent, and
`options?.forceJson && supportsJsonMode(model)` reads `forceJson`
truthily. -/
def generateRequest (env : Env) (config : OpenRouterConfig)
    (serviceType : ServiceType) (prompt : String)
    (options : GenerateOptions) : APIRequest :=
  let model := jsOrString options.model (getModelForService env config serviceType)
  let systemPrompt := jsOrString options.systemPrompt
      (getSystemPromptForService serviceType (options.forceJson.getD false))
  let temperature := options.temperature.getD (getTemperatureForService serviceType)
  let maxTokens := options.maxTokens.getD (getMaxTokensForService env config serviceType)
  { model := model
    messages := [⟨"system", systemPrompt⟩, ⟨"user", prompt⟩]
    temperature := temperature
    max_tokens := maxTokens
    response_format :=
      if options.forceJson.getD false && supportsJsonMode model then
        some "json_object"
      else none }

/-- A JavaScript value as seen by the response-handling code: parsed JSON
plus `undefined` (the result of reading an absent property). JSON numbers
in the claims are integers, so `num` carries an `Int`. -/
inductive JsVal where
  | undefined
  | null
  | bool (b : Bool)
  | num (n : Int)
  | str (s : String)
  | arr (elems : List JsVal)
  | obj (fields : List (String × JsVal))

/-- `undefined` or `null`: the values on which `?.` short-circuits and
property access throws. -/
def JsVal.isNullish : JsVal → Bool
  | .undefined => true
  | .null => true
  | _ => false

/-- Exactly the value `undefined`. -/
def JsVal.isUndefinedVal : JsVal → Bool
  | .undefined => true
  | _ => false

/-- First-match association lookup among an object's fields. -/
def lookupField (fields : List (String × JsVal)) (name : String) : Option JsVal :=
  match fields with
  | [] => none
  | (k, v) :: rest => if k = name then some v else lookupField rest name

/-- JSON.stringify escaping for one character (quote, backslash and the
common control characters; the claims' strings contain none of these). -/
def escapeChar (c : Char) : String :=
  if c = '"' then "\\\""
  else if c = '\\' then "\\\\"
  else if c = '\n' then "\\n"
  else if c = '\t' then "\\t"
  else if c = '\r' then "\\r"
  else String.singleton c

/-- JSON.stringify of a string literal. -/
def escapeString (s : String) : String :=
  "\"" ++ String.join (s.data.map escapeChar) ++ "\""

mutual

/-- `JSON.stringify` as used on the parsed error body
(`src/core/OpenRouterClient.ts:111`): `undefined` entries are omitted in
objects and become `null` in arrays, exactly as in JS. Braces are written
`\x7b` / `\x7d`. -/
def JsVal.stringify : JsVal → String
  | .undefined => "undefined"
  | .null => "null"
  | .bool b => if b then "true" else "false"
  | .num n => toString n
  | .str s => escapeString s
  | .arr elems => "[" ++ stringifyElems elems ++ "]"
  | .obj fields => "\x7b" ++ stringifyFields fields ++ "\x7d"

/-- Comma-joined array elements; `undefined` serialises as `null`. -/
def stringifyElems : List JsVal → String
  | [] => ""
  | [v] => if v.isUndefinedVal then "null" else JsVal.stringify v
  | v :: rest =>
    (if v.isUndefinedVal then "null" else JsVal.stringify v) ++ "," ++ stringifyElems rest

/-- Comma-joined object entries; keys with `undefined` values are dropped. -/
def stringifyFields : List (String × JsVal) → String
  | [] => ""
  | (k, v) :: rest =>
    if v.isUndefinedVal then stringifyFields rest
    else
      escapeString k ++ ":" ++ JsVal.stringify v ++
        (if (rest.filter (fun p => !p.2.isUndefinedVal)).isEmpty then "" else ",") ++
        stringifyFields rest

end

/-- JS property read `v.name`: throws a TypeError on `undefined`/`null`
(wording of the host's message abbreviated; no claim depends on it),
yields the field on objects, and `undefined` on every other value and on
absent fields. -/
def getProp (v : JsVal) (name : String) : Except String JsVal :=
  match v with
  | .undefined => .error ("TypeError: Cannot read properties of undefined (reading " ++ name ++ ")")
  | .null => .error ("TypeError: Cannot read properties of null (reading " ++ name ++ ")")
  | .obj fields => .ok ((lookupField fields name).getD .undefined)
  | _ => .ok .undefined

/-- JS index read `v[i]`: throws on `undefined`/`null`, yields the element
on arrays (`undefined` out of range), the `"i"` field on objects and
`undefined` otherwise. -/
def getIndex (v : JsVal) (i : Nat) : Except String JsVal :=
  match v with
  | .undefined => .error ("TypeError: Cannot read properties of undefined (reading " ++ toString i ++ ")")
  | .null => .error ("TypeError: Cannot read properties of null (reading " ++ toString i ++ ")")
  | .arr elems => .ok (elems.getD i .undefined)
  | .obj fields => .ok ((lookupField fields (toString i)).getD .undefined)
  | _ => .ok .undefined

/-- `x || ''` applied to the extracted `content`, whose declared type in
`APIResponse` is `string`: a non-empty string passes through, everything
falsy (absent, `null`, `""`) collapses to the empty string. -/
def JsVal.orEmptyString : JsVal → String
  | .str s => s
  | _ => ""

/-- `data.choices[0]?.message?.content || ''`
(`src/core/OpenRouterClient.ts:116`). The first `?.` sits AFTER the
`[0]` access, so `data.choices` being `undefined` throws before any
short-circuit can happen; from `choices[0]` on, nullish values
short-circuit the chain to `undefined`, which `|| ''` turns into `""`. -/
def extractContent (data : JsVal) : Except String String := do
  let choices ← getProp data "choices"
  let c0 ← getIndex choices 0
  if c0.isNullish then pure ""
  else
    let msg ← getProp c0 "message"
    if msg.isNullish then pure ""
    else
      let content ← getProp msg "content"
      pure content.orEmptyString

/-- What the single `fetch` of `generate` resolved to: an HTTP response
whose body either parses as JSON (`some` value) or does not (`none`), or
a network-level rejection carrying an error message. -/
inductive FetchResult where
  | response (status : Nat) (statusText : String) (jsonBody : Option JsVal)
  | networkError (message : String)

/-- The `catch` wrapper of `generate` (`src/core/OpenRouterClient.ts:117-121`). -/
def wrapGenerationError (serviceType : ServiceType) (msg : String) : String :=
  "Failed to generate with " ++ serviceTypeName serviceType ++ ": " ++ msg

/-- `Response.ok` of the Fetch standard: status in the inclusive range
200..299. -/
def responseOk (status : Nat) : Bool :=
  200 ≤ status && status ≤ 299

/-- Message of the `SyntaxError` a 2xx `response.json()` rejects with on
an unparseable body (host-dependent wording; no claim depends on it). -/
def jsonParseFailureMessage : String :=
  "SyntaxError: Unexpected token in JSON"

/-- The response-handling part of `OpenRouterClient.generate`
(`src/core/OpenRouterClient.ts:108-121`): on a non-ok status the body's
parse result (or `{}` via `.catch(() => ({}))`) is stringified into the
thrown message; on an ok status the body is parsed and the content
extracted; every throw is wrapped by the `catch` into the single
`Failed to generate with <serviceType>: ...` error. -/
def generateResult (serviceType : ServiceType) (fr : FetchResult) :
    Except String String :=
  match fr with
  | .networkError m => .error (wrapGenerationError serviceType m)
  | .response status statusText jsonBody =>
    if !responseOk status then
      let errorData := jsonBody.getD (.obj [])
      .error (wrapGenerationError serviceType
        ("OpenRouter API error: " ++ toString status ++ " " ++ statusText ++
          " - " ++ errorData.stringify))
    else
      match jsonBody with
      | none => .error (wrapGenerationError serviceType jsonParseFailureMessage)
      | some data =>
        match extractContent data with
        | .ok content => .ok content
        | .error m => .error (wrapGenerationError serviceType m)

/-- `Except.isOk` as a plain Bool, to state that a call succeeded. -/
def isOkResult : Except String String → Bool
  | .ok _ => true
  | .error _ => false

/-- A tiny heap of `OpenRouterConfig` objects: JS variables hold
references (modelled as addresses below `next`); spreading `{ ...c }`
allocates a fresh object. -/
structure ConfigHeap where
  mem : Nat → OpenRouterConfig
  next : Nat

/-- Dereference. -/
def ConfigHeap.read (h : ConfigHeap) (r : Nat) : OpenRouterConfig :=
  h.mem r

/-- In-place mutation of the object behind a reference (what a caller
does to the value `getConfig` hands back). -/
def ConfigHeap.write (h : ConfigHeap) (r : Nat) (c : OpenRouterConfig) : ConfigHeap :=
  { h with mem := fun a => if a = r then c else h.mem a }

/-- Allocation at the fresh address `next`. -/
def ConfigHeap.alloc (h : ConfigHeap) (c : OpenRouterConfig) : ConfigHeap × Nat :=
  ({ mem := fun a => if a = h.next then c else h.mem a, next := h.next + 1 }, h.next)

/-- `OpenRouterClient.getConfig` (`src/core/OpenRouterClient.ts:206-208`):
`return { ...this.config }` copies the fields of the client's
configuration object into a freshly allocated object and returns a
reference to the copy. All three fields are strings (immutable JS
primitives), so the shallow spread copies everything there is. -/
def getConfig (h : ConfigHeap) (configRef : Nat) : ConfigHeap × Nat :=
  h.alloc (h.read configRef)

/-- `OpenRouterClient.getDefaultConfig`
(`src/core/OpenRouterClient.ts:210-216`): `apiKey` and `model` read their
environment variables with `||` fallbacks, `baseURL` is the hardcoded
URL — no environment variable is consulted for it. -/
def getDefaultConfig (env : Env) : OpenRouterConfig :=
  { apiKey := jsOrString (env "OPENROUTER_API_KEY") ""
    baseURL := "https://openrouter.ai/api/v1"
    model := jsOrString (env "OPENROUTER_DEFAULT_MODEL") "anthropic/claude-3.5-sonnet" }

/-! Concrete environments and values used by witnesses and counterexamples. -/

/-- An environment with only the mock-generator category override set. -/
def envMockOverride : Env :=
  fun k => if k = "OPENROUTER_MOCK_GENERATOR_MODEL" then some "meta-llama/llama-3-70b" else none

/-- An environment with only the global default-model override set. -/
def envGlobalClaude : Env :=
  fun k => if k = "OPENROUTER_DEFAULT_MODEL" then some "anthropic/claude-3-opus" else none

/-- An environment with only an (ignored) base-URL variable set. -/
def envBaseUrlOnly : Env :=
  fun k => if k = "OPENROUTER_BASE_URL" then some "https://proxy.example.com/api" else none

/-- An environment with only the API key variable set. -/
def envApiKeyOnly : Env :=
  fun k => if k = "OPENROUTER_API_KEY" then some "sk-test" else none

/-- A configuration used as concrete input in witnesses. -/
def sampleConfig : OpenRouterConfig :=
  { apiKey := "key", baseURL := "https://openrouter.ai/api/v1", model := "mistralai/mixtral-8x7b" }

/-- The parsed JSON body of the rate-limited response from the spec's
test vector. -/
def rateLimitedBody : JsVal :=
  .obj [("error", .obj [("message", .str "rate limited")])]

/-- A one-object heap whose address 0 holds the client's configuration. -/
def witnessHeap : ConfigHeap :=
  { mem := fun _ => sampleConfig, next := 1 }

end OpenRouterAgents

namespace OpenRouterAgents

/-! ### Helper lemmas -/

/-- Every string includes itself. -/
theorem strIncludes_self (x : String) : strIncludes x x = true := by
  simp only [strIncludes, decide_eq_true_eq]
  exact ⟨[], [], by simp⟩

/-- Inclusion survives prepending. -/
theorem strIncludes_append_right (w s x : String) (h : strIncludes s x = true) :
    strIncludes (w ++ s) x = true := by
  simp only [strIncludes, decide_eq_true_eq, String.data_append] at h ⊢
  obtain ⟨a, b, hab⟩ := h
  exact ⟨w.data ++ a, b, by rw [← hab]; simp⟩

/-- Inclusion survives appending. -/
theorem strIncludes_append_left (s w x : String) (h : strIncludes s x = true) :
    strIncludes (s ++ w) x = true := by
  simp only [strIncludes, decide_eq_true_eq, String.data_append] at h ⊢
  obtain ⟨a, b, hab⟩ := h
  exact ⟨a, b ++ w.data, by rw [← hab]; simp⟩

/-! ### Claim theorems -/

/-- C1 (counterexample): with the mock-generator environment override set
AND an explicit `options.model` supplied, the model in the wire request is
the explicit one, not the environment override — the claimed precedence
(environment before explicit) is false. -/
theorem c1_counterexample :
    (generateRequest envMockOverride sampleConfig ServiceType.mockGenerator "p"
        { model := some "qwen/qwen-2-72b" }).model = "qwen/qwen-2-72b" ∧
    envMockOverride "OPENROUTER_MOCK_GENERATOR_MODEL" = some "meta-llama/llama-3-70b" ∧
    "qwen/qwen-2-72b" ≠ "meta-llama/llama-3-70b" := by
  refine ⟨rfl, rfl, by decide⟩

/-- C1 (amended): in the generate call path a non-empty explicit
`options.model` always determines the model sent in the wire request;
the environment override chain (category-specific variable, then the
global default-model variable, then the configured model) is consulted
only when no explicit model is supplied or the supplied one is empty. -/
theorem c1_model_resolution (env : Env) (config : OpenRouterConfig)
    (st : ServiceType) (prompt : String) (options : GenerateOptions) :
    (∀ m, options.model = some m → m ≠ "" →
      (generateRequest env config st prompt options).model = m) ∧
    ((options.model = none ∨ options.model = some "") →
      (generateRequest env config st prompt options).model =
        getModelForService env config st) := by
  constructor
  · intro m hm hne
    simp [generateRequest, jsOrString, hm, hne]
  · rintro (hm | hm) <;> simp [generateRequest, jsOrString, hm]

/-- C1 (witness): the amended theorem applied at a concrete input. -/
theorem c1_model_resolution_witness :
    ({ model := some "qwen/qwen-2-72b" } : GenerateOptions).model = some "qwen/qwen-2-72b" ∧
    (generateRequest envMockOverride sampleConfig ServiceType.mockGenerator "p"
        { model := some "qwen/qwen-2-72b" }).model = "qwen/qwen-2-72b" :=
  ⟨rfl,
    (c1_model_resolution envMockOverride sampleConfig ServiceType.mockGenerator "p"
        { model := some "qwen/qwen-2-72b" }).1 "qwen/qwen-2-72b" rfl (by decide)⟩

/-- C3: for every model identifier containing `"claude-3"`, the resolved
max-token default is 8000 for mock generation, 6000 for code generation,
3000 for translation, 8000 for documentation and 4000 for the custom
category. -/
theorem c3_claude3_max_tokens (model : String)
    (h : strIncludes model "claude-3" = true) :
    maxTokensForModel ServiceType.mockGenerator model = 8000 ∧
    maxTokensForModel ServiceType.codeGenerator model = 6000 ∧
    maxTokensForModel ServiceType.translation model = 3000 ∧
    maxTokensForModel ServiceType.documentation model = 8000 ∧
    maxTokensForModel ServiceType.custom model = 4000 := by
  simp [maxTokensForModel, h, getTokenLimitByService]

/-- C3 (witness): the theorem applied to `anthropic/claude-3.5-sonnet`. -/
theorem c3_claude3_max_tokens_witness :
    strIncludes "anthropic/claude-3.5-sonnet" "claude-3" = true ∧
    (maxTokensForModel ServiceType.mockGenerator "anthropic/claude-3.5-sonnet" = 8000 ∧
     maxTokensForModel ServiceType.codeGenerator "anthropic/claude-3.5-sonnet" = 6000 ∧
     maxTokensForModel ServiceType.translation "anthropic/claude-3.5-sonnet" = 3000 ∧
     maxTokensForModel ServiceType.documentation "anthropic/claude-3.5-sonnet" = 8000 ∧
     maxTokensForModel ServiceType.custom "anthropic/claude-3.5-sonnet" = 4000) :=
  ⟨by decide, c3_claude3_max_tokens "anthropic/claude-3.5-sonnet" (by decide)⟩

/-- C4: the resolved default temperature is the fixed documented constant
for every service category — 0.7, 0.3, 0.1, 0.4, 0.5 — and the resolver
is a function of the category alone. -/
theorem c4_temperature_constants :
    getTemperatureForService ServiceType.mockGenerator = 0.7 ∧
    getTemperatureForService ServiceType.codeGenerator = 0.3 ∧
    getTemperatureForService ServiceType.translation = 0.1 ∧
    getTemperatureForService ServiceType.documentation = 0.4 ∧
    getTemperatureForService ServiceType.custom = 0.5 :=
  ⟨rfl, rfl, rfl, rfl, rfl⟩

/-- C2: for every prompt, category, environment, configuration and option
combination, the wire request carries `response_format = json_object`
exactly when `forceJson` is true and the resolved model (the `model`
field of the same request) matches the static JSON-capable pattern
table; in every other combination the field is absent. -/
theorem c2_response_format_iff (env : Env) (config : OpenRouterConfig)
    (st : ServiceType) (prompt : String) (options : GenerateOptions) :
    ((generateRequest env config st prompt options).response_format = some "json_object" ↔
      options.forceJson = some true ∧
        supportsJsonMode (generateRequest env config st prompt options).model = true) ∧
    ((generateRequest env config st prompt options).response_format = none ↔
      ¬(options.forceJson = some true ∧
        supportsJsonMode (generateRequest env config st prompt options).model = true)) := by
  obtain ⟨sp, t, mt, fj, m⟩ := options
  cases fj with
  | none => simp [generateRequest]
  | some b =>
    cases b with
    | false => simp [generateRequest]
    | true =>
      by_cases hj :
          supportsJsonMode (jsOrString m (getModelForService env config st)) = true <;>
        simp [generateRequest, hj]

/-- C9: when the caller passes an explicit `options.model` but leaves
`options.maxTokens` unset, the `max_tokens` of the wire request is
computed from the environment/configuration resolution chain
(`getModelForService`), not from the explicit model — the explicit model
never influences the resolved max-token default. -/
theorem c9_max_tokens_ignores_explicit_model (env : Env)
    (config : OpenRouterConfig) (st : ServiceType) (prompt : String)
    (options : GenerateOptions) (m : String)
    (_hm : options.model = some m) (hmt : options.maxTokens = none) :
    (generateRequest env config st prompt options).max_tokens =
      maxTokensForModel st (getModelForService env config st) := by
  simp [generateRequest, hmt, getMaxTokensForService]

/-- C9 (witness): explicit gpt-3.5 model with a claude-3 environment
default — `max_tokens` follows the environment-resolved claude-3 model
(8000 for mock generation), not the explicit gpt-3.5 one. -/
theorem c9_max_tokens_ignores_explicit_model_witness :
    ({ model := some "openai/gpt-3.5-turbo" } : GenerateOptions).model =
        some "openai/gpt-3.5-turbo" ∧
    ({ model := some "openai/gpt-3.5-turbo" } : GenerateOptions).maxTokens = none ∧
    (generateRequest envGlobalClaude sampleConfig ServiceType.mockGenerator "p"
        { model := some "openai/gpt-3.5-turbo" }).max_tokens =
      maxTokensForModel ServiceType.mockGenerator
        (getModelForService envGlobalClaude sampleConfig ServiceType.mockGenerator) ∧
    maxTokensForModel ServiceType.mockGenerator
        (getModelForService envGlobalClaude sampleConfig ServiceType.mockGenerator) = 8000 :=
  ⟨rfl, rfl,
    c9_max_tokens_ignores_explicit_model envGlobalClaude sampleConfig
      ServiceType.mockGenerator "p" { model := some "openai/gpt-3.5-turbo" }
      "openai/gpt-3.5-turbo" rfl rfl,
    by decide⟩

/-- C10: `generate` treats falsy per-call overrides non-uniformly: an
empty-string `options.model` or `options.systemPrompt` is ignored in
favour of the category/configuration default (`||`, truthiness), while
`options.temperature = 0` and `options.maxTokens = 0` are honoured and
sent on the wire (`??`, nullish check); only absent temperature and
max-token options fall through to the resolver defaults. -/
theorem c10_falsy_override_semantics (env : Env) (config : OpenRouterConfig)
    (st : ServiceType) (prompt : String) (options : GenerateOptions) :
    ((generateRequest env config st prompt { options with model := some "" }).model =
      getModelForService env config st) ∧
    ((generateRequest env config st prompt { options with systemPrompt := some "" }).messages =
      [⟨"system", getSystemPromptForService st (options.forceJson.getD false)⟩,
       ⟨"user", prompt⟩]) ∧
    ((generateRequest env config st prompt { options with temperature := some 0 }).temperature
      = 0) ∧
    ((generateRequest env config st prompt { options with maxTokens := some 0 }).max_tokens
      = 0) ∧
    ((generateRequest env config st prompt { options with temperature := none }).temperature =
      getTemperatureForService st) ∧
    ((generateRequest env config st prompt { options with maxTokens := none }).max_tokens =
      getMaxTokensForService env config st) := by
  refine ⟨?_, ?_, ?_, ?_, ?_, ?_⟩ <;> simp [generateRequest, jsOrString]

/-- C5: on every non-2xx HTTP response, `generate` fails with a single
error whose message contains the HTTP status code, the status text, the
stringified parsed error body (an empty object when the body is not
parseable JSON) and the bound service category name. -/
theorem c5_http_error (st : ServiceType) (status : Nat) (statusText : String)
    (body : Option JsVal) (h : responseOk status = false) :
    ∃ msg,
      generateResult st (.response status statusText body) = Except.error msg ∧
      strIncludes msg (toString status) = true ∧
      strIncludes msg statusText = true ∧
      strIncludes msg ((body.getD (JsVal.obj [])).stringify) = true ∧
      strIncludes msg (serviceTypeName st) = true := by
  refine ⟨wrapGenerationError st ("OpenRouter API error: " ++ toString status ++ " " ++
      statusText ++ " - " ++ (body.getD (JsVal.obj [])).stringify), ?_, ?_, ?_, ?_, ?_⟩
  · simp [generateResult, h]
  · unfold wrapGenerationError
    exact strIncludes_append_right _ _ _ (strIncludes_append_left _ _ _
      (strIncludes_append_left _ _ _ (strIncludes_append_left _ _ _
        (strIncludes_append_left _ _ _ (strIncludes_append_right _ _ _
          (strIncludes_self _))))))
  · unfold wrapGenerationError
    exact strIncludes_append_right _ _ _ (strIncludes_append_left _ _ _
      (strIncludes_append_left _ _ _ (strIncludes_append_right _ _ _
        (strIncludes_self _))))
  · unfold wrapGenerationError
    exact strIncludes_append_right _ _ _ (strIncludes_append_right _ _ _
      (strIncludes_self _))
  · unfold wrapGenerationError
    exact strIncludes_append_left _ _ _ (strIncludes_append_left _ _ _
      (strIncludes_append_right _ _ _ (strIncludes_self _)))

set_option maxRecDepth 20000 in
/-- C5 (witness): the theorem applied to the spec's 429 test vector; the
resulting message also contains the substring `rate limited`. -/
theorem c5_http_error_witness :
    responseOk 429 = false ∧
    (∃ msg,
      generateResult ServiceType.translation
          (.response 429 "Too Many Requests" (some rateLimitedBody)) = Except.error msg ∧
      strIncludes msg "429" = true ∧
      strIncludes msg "Too Many Requests" = true ∧
      strIncludes msg rateLimitedBody.stringify = true ∧
      strIncludes msg "translation" = true) ∧
    strIncludes
      (match generateResult ServiceType.translation
          (.response 429 "Too Many Requests" (some rateLimitedBody)) with
        | .error m => m
        | .ok s => s) "rate limited" = true :=
  ⟨rfl,
    c5_http_error ServiceType.translation 429 "Too Many Requests" (some rateLimitedBody) rfl,
    by decide⟩

/-- C6 (counterexample): on a 200 response whose parsed body has no
`choices` field at all, `generate` does NOT return the empty string — the
`[0]` access on `undefined` throws a TypeError that the catch wraps into
the generation error, refuting the claim for the absent-choices case. -/
theorem c6_counterexample :
    generateResult ServiceType.custom
        (.response 200 "OK" (some (JsVal.obj [("usage", JsVal.obj [])]))) =
      Except.error
        "Failed to generate with custom: TypeError: Cannot read properties of undefined (reading 0)" ∧
    isOkResult (generateResult ServiceType.custom
        (.response 200 "OK" (some (JsVal.obj [("usage", JsVal.obj [])])))) = false :=
  ⟨rfl, rfl⟩

/-- C6 (amended): on a 2xx response whose parsed body HAS a `choices`
array, `generate` reads only `choices[0].message.content`: an empty
choices array, a first choice with no `message`, or a missing/empty
`content` all yield the empty string as a successful return value, and a
present `content` string is returned as-is; when the `choices` field is
absent, however, the call fails with the wrapped TypeError instead. -/
theorem c6_first_choice_extraction (st : ServiceType) (statusText : String)
    (tail : List JsVal) (rest : List (String × JsVal)) :
    generateResult st (.response 200 statusText
        (some (JsVal.obj (("choices", JsVal.arr []) :: rest)))) = Except.ok "" ∧
    generateResult st (.response 200 statusText
        (some (JsVal.obj (("choices", JsVal.arr (JsVal.obj [] :: tail)) :: rest)))) =
      Except.ok "" ∧
    generateResult st (.response 200 statusText
        (some (JsVal.obj (("choices",
          JsVal.arr (JsVal.obj [("message", JsVal.obj [])] :: tail)) :: rest)))) =
      Except.ok "" ∧
    (∀ s : String, generateResult st (.response 200 statusText
        (some (JsVal.obj [("choices",
          JsVal.arr [JsVal.obj [("message", JsVal.obj [("content", JsVal.str s)])]])]))) =
      Except.ok s) ∧
    generateResult st (.response 200 statusText (some (JsVal.obj []))) =
      Except.error (wrapGenerationError st
        "TypeError: Cannot read properties of undefined (reading 0)") :=
  ⟨rfl, rfl, rfl, fun _ => rfl, rfl⟩

/-- C7: `getConfig` returns a defensive copy — a reference distinct from
the client's own configuration object, so that any mutation a caller
applies through the returned reference leaves the configuration object
the client reads (and hence every later `generate` call) unchanged. -/
theorem c7_getConfig_defensive_copy (h : ConfigHeap) (configRef : Nat)
    (hlt : configRef < h.next) (mutated : OpenRouterConfig) :
    ((getConfig h configRef).1.write (getConfig h configRef).2 mutated).read configRef =
      h.read configRef ∧
    (getConfig h configRef).2 ≠ configRef := by
  have hne : configRef ≠ h.next := Nat.ne_of_lt hlt
  refine ⟨?_, ?_⟩
  · simp [getConfig, ConfigHeap.alloc, ConfigHeap.write, ConfigHeap.read, hne]
  · have hsnd : (getConfig h configRef).2 = h.next := rfl
    rw [hsnd]
    exact Ne.symm hne

/-- C7 (witness): the theorem applied to a one-object heap and a
concrete hostile mutation. -/
theorem c7_getConfig_defensive_copy_witness :
    0 < witnessHeap.next ∧
    (((getConfig witnessHeap 0).1.write (getConfig witnessHeap 0).2
        { apiKey := "evil", baseURL := "evil", model := "evil" }).read 0 =
          witnessHeap.read 0 ∧
      (getConfig witnessHeap 0).2 ≠ 0) :=
  ⟨by decide,
    c7_getConfig_defensive_copy witnessHeap 0 (by decide)
      { apiKey := "evil", baseURL := "evil", model := "evil" }⟩

/-- C8 (counterexample): `getDefaultConfig` ignores the
`OPENROUTER_BASE_URL` environment variable — even with it set, the
returned `baseURL` is the hardcoded URL, refuting the claimed base-URL
reflection. -/
theorem c8_counterexample :
    envBaseUrlOnly "OPENROUTER_BASE_URL" = some "https://proxy.example.com/api" ∧
    (getDefaultConfig envBaseUrlOnly).baseURL = "https://openrouter.ai/api/v1" ∧
    (getDefaultConfig envBaseUrlOnly).baseURL ≠ "https://proxy.example.com/api" :=
  ⟨rfl, rfl, by decide⟩

/-- C8 (amended): `getDefaultConfig` assembles the configuration purely
from the environment plus hardcoded fallbacks and cannot fail: `apiKey`
reflects `OPENROUTER_API_KEY` (empty-string fallback), `model` reflects
`OPENROUTER_DEFAULT_MODEL` (hardcoded model fallback), and `baseURL` is
always the hardcoded URL — no base-URL environment variable exists in
the code. -/
theorem c8_default_config (env : Env) :
    (getDefaultConfig env).baseURL = "https://openrouter.ai/api/v1" ∧
    (∀ k, env "OPENROUTER_API_KEY" = some k → k ≠ "" →
      (getDefaultConfig env).apiKey = k) ∧
    ((env "OPENROUTER_API_KEY" = none ∨ env "OPENROUTER_API_KEY" = some "") →
      (getDefaultConfig env).apiKey = "") ∧
    (∀ m, env "OPENROUTER_DEFAULT_MODEL" = some m → m ≠ "" →
      (getDefaultConfig env).model = m) ∧
    ((env "OPENROUTER_DEFAULT_MODEL" = none ∨ env "OPENROUTER_DEFAULT_MODEL" = some "") →
      (getDefaultConfig env).model = "anthropic/claude-3.5-sonnet") := by
  refine ⟨rfl, ?_, ?_, ?_, ?_⟩
  · intro k hk hne
    simp [getDefaultConfig, jsOrString, hk, hne]
  · rintro (hk | hk) <;> simp [getDefaultConfig, jsOrString, hk]
  · intro m hm hne
    simp [getDefaultConfig, jsOrString, hm, hne]
  · rintro (hm | hm) <;> simp [getDefaultConfig, jsOrString, hm]

/-- C8 (witness): the amended theorem applied to an environment with only
the API key variable set. -/
theorem c8_default_config_witness :
    envApiKeyOnly "OPENROUTER_API_KEY" = some "sk-test" ∧
    envApiKeyOnly "OPENROUTER_DEFAULT_MODEL" = none ∧
    (getDefaultConfig envApiKeyOnly).baseURL = "https://openrouter.ai/api/v1" ∧
    (getDefaultConfig envApiKeyOnly).apiKey = "sk-test" ∧
    (getDefaultConfig envApiKeyOnly).model = "anthropic/claude-3.5-sonnet" :=
  ⟨rfl, rfl, (c8_default_config envApiKeyOnly).1,
    (c8_default_config envApiKeyOnly).2.1 "sk-test" rfl (by decide),
    (c8_default_config envApiKeyOnly).2.2.2.2 (Or.inl rfl)⟩

end OpenRouterAgents
